import Mathlib

/-!
Verification of the BMS-App icon-generation scripts.

The repository holds three scripts:
  * create_humaya_icons.py : resizes a logo onto transparent square canvases
    for the five Android mipmap densities;
  * create_ios_icons.py    : the same scale-and-center computation for the
    fifteen iOS app-icon sizes;
  * create_logo.py         : procedurally draws a circular "H" emblem.

The Python code does its scaling arithmetic with IEEE-754 binary64 floats
(`w / h`, `size * 0.8`, `int(...)`).  Two models of the scaling block are
developed side by side:

  * `scale_dims_humaya` / `scale_dims_ios` evaluate the same expressions in
    exact rational arithmetic, with `Nat.floor` for `int(...)` on the
    (always nonnegative) intermediate values.  This is the idealization the
    spec's floor formulas denote.  It is NOT always what the float program
    computes: double rounding can make the aspect-dependent dimension one
    smaller than the exact floor formula (source 53 x 76 at size 96: the
    code computes new_width 52 where floor(new_height * aspect) = 53).
  * `scale_dims_humaya_float` / `scale_dims_ios_float` are bit-accurate:
    every intermediate value is the correctly rounded binary64
    (round-to-nearest, ties-to-even) of its exact value, which is IEEE
    semantics for each of the operations involved, so on these inputs they
    compute exactly what CPython computes.

The exact model is used for the claims whose properties do not depend on
which of the two values the aspect-dependent dimension takes: the failure
behavior shared by both models, properties holding for any computed pair of
dimensions that is at most floor(0.8 * size), properties of whatever box is
actually pasted, the textual identity of the two scripts' blocks, and
concrete inputs at which both models agree (verified in the float model).
The float model settles the one claim that asserts exact agreement with the
floor formulas on all inputs.  Python's integer floor division `//` becomes
`Int.fdiv` (on possibly negative differences) or `/` on ℕ.
-/

/-- One RGBA pixel: red, green, blue, alpha channels. -/
structure RGBA where
  r : Nat
  g : Nat
  b : Nat
  a : Nat
  deriving DecidableEq, Repr

/-- A decoded raster image: dimensions plus a pixel grid, modelled as a total
function (only coordinates below the dimensions are meaningful). -/
structure Img where
  width : Nat
  height : Nat
  pixel : Nat → Nat → RGBA

/-- The only exception the scripts' own arithmetic can raise:
`logo.width / logo.height` divides by zero when the logo height is 0.
No other statement in the scaling block can fail. -/
inductive PyError where
  | zeroDivisionError
  deriving DecidableEq, Repr

/-- The scaling block of create_humaya_icons.py (lines 26-33):

    logo_aspect = logo.width / logo.height
    if logo_aspect > 1:
        new_width = int(size * 0.8)
        new_height = int(new_width / logo_aspect)
    else:
        new_height = int(size * 0.8)
        new_width = int(new_height * logo_aspect)

This model evaluates the block in exact rational arithmetic; `int` of a
nonnegative value is `Nat.floor`; the division by `logo.height` raises
ZeroDivisionError when the height is zero, exactly as in Python.  It is the
idealization denoted by the spec's floor formulas, not a bit-accurate float
semantics: IEEE double rounding can make the aspect-dependent dimension one
smaller than this model computes (53 x 76 at size 96 gives 52 in floats but
53 here); `scale_dims_humaya_float` below models the rounding exactly. -/
def scale_dims_humaya (w h size : Nat) : Except PyError (Nat × Nat) :=
  if h = 0 then Except.error PyError.zeroDivisionError
  else
    let logo_aspect : ℚ := (w : ℚ) / (h : ℚ)
    if 1 < logo_aspect then
      let new_width : Nat := Nat.floor ((size : ℚ) * ((8 : ℚ) / 10))
      let new_height : Nat := Nat.floor ((new_width : ℚ) / logo_aspect)
      Except.ok (new_width, new_height)
    else
      let new_height : Nat := Nat.floor ((size : ℚ) * ((8 : ℚ) / 10))
      let new_width : Nat := Nat.floor ((new_height : ℚ) * logo_aspect)
      Except.ok (new_width, new_height)

/-- The scaling block of create_ios_icons.py (lines 35-42), transcribed from
that file; it is textually the same code as in create_humaya_icons.py.
Like `scale_dims_humaya` this is the exact-rational idealization;
`scale_dims_ios_float` below is the bit-accurate float version. -/
def scale_dims_ios (w h size : Nat) : Except PyError (Nat × Nat) :=
  if h = 0 then Except.error PyError.zeroDivisionError
  else
    let logo_aspect : ℚ := (w : ℚ) / (h : ℚ)
    if 1 < logo_aspect then
      let new_width : Nat := Nat.floor ((size : ℚ) * ((8 : ℚ) / 10))
      let new_height : Nat := Nat.floor ((new_width : ℚ) / logo_aspect)
      Except.ok (new_width, new_height)
    else
      let new_height : Nat := Nat.floor ((size : ℚ) * ((8 : ℚ) / 10))
      let new_width : Nat := Nat.floor ((new_height : ℚ) * logo_aspect)
      Except.ok (new_width, new_height)

/-- Centering offsets of create_humaya_icons.py (lines 39-40):
`x = (size - new_width) // 2`, `y = (size - new_height) // 2`.
Python ints with floor division; embedded over ℤ with `Int.fdiv`. -/
def center_offsets_humaya (size new_width new_height : Nat) : Int × Int :=
  (Int.fdiv ((size : Int) - (new_width : Int)) 2,
   Int.fdiv ((size : Int) - (new_height : Int)) 2)

/-- Centering offsets of create_ios_icons.py (lines 48-49), same text. -/
def center_offsets_ios (size new_width new_height : Nat) : Int × Int :=
  (Int.fdiv ((size : Int) - (new_width : Int)) 2,
   Int.fdiv ((size : Int) - (new_height : Int)) 2)

/-- PIL `Image.new('RGBA', (w, h), c)`: a w x h image, every pixel `c`. -/
def image_new (w h : Nat) (c : RGBA) : Img :=
  ⟨w, h, fun _ _ => c⟩

/-- Pillow's MULDIV255 macro: `tmp = a*b + 128; ((tmp >> 8) + tmp) >> 8`,
the rounded byte product a*b/255 used by paste-with-mask blending. -/
def muldiv255 (x y : Nat) : Nat :=
  ((x * y + 128) / 256 + (x * y + 128)) / 256

/-- Pillow's per-channel BLEND for paste with a mask value `mask`:
`MULDIV255(dst, 255 - mask) + MULDIV255(src, mask)`. -/
def blend_channel (mask dst src : Nat) : Nat :=
  muldiv255 dst (255 - mask) + muldiv255 src mask

/-- Blending one RGBA destination pixel with a source pixel, the mask being
the source's own alpha channel (paste(im, box, im) passes `im` as mask). -/
def blend_rgba (dst src : RGBA) : RGBA :=
  ⟨blend_channel src.a dst.r src.r, blend_channel src.a dst.g src.g,
   blend_channel src.a dst.b src.b, blend_channel src.a dst.a src.a⟩

/-- PIL `logo.resize((w, h), LANCZOS)`: the output dimensions are exactly
`(w, h)`.  The pixel values produced by the Lanczos filter are modelled by
coordinate sampling; no claim depends on the resampled pixel values, only on
the output dimensions and (through paste) the alpha of the source pixels,
which in every claim is left universally quantified. -/
def image_resize (im : Img) (w h : Nat) : Img :=
  ⟨w, h, fun i j => im.pixel (i * im.width / w) (j * im.height / h)⟩

/-- PIL `dst.paste(src, (x, y), src)`: pixels inside the box
`[x, x + src.width) x [y, y + src.height)` are blended with the source using
the source's alpha as mask; every pixel outside the box is untouched. -/
def image_paste (dst src : Img) (x y : Int) : Img :=
  ⟨dst.width, dst.height, fun i j =>
    if x ≤ (i : Int) ∧ (i : Int) < x + (src.width : Int) ∧
       y ≤ (j : Int) ∧ (j : Int) < y + (src.height : Int) then
      blend_rgba (dst.pixel i j)
        (src.pixel ((i : Int) - x).toNat (((j : Int) - y).toNat))
    else dst.pixel i j⟩

/-- The body of one loop iteration of create_app_icons_from_logo
(lines 24-43 of create_humaya_icons.py), the spec's `renderIcon`:
allocate a transparent size x size canvas, compute the scaled content
dimensions, resize the logo, compute the centering offsets and paste. -/
def renderIcon (logo : Img) (size : Nat) : Except PyError Img := do
  let icon := image_new size size ⟨255, 255, 255, 0⟩
  let dims ← scale_dims_humaya logo.width logo.height size
  let resized := image_resize logo dims.1 dims.2
  let xy := center_offsets_humaya size dims.1 dims.2
  pure (image_paste icon resized xy.1 xy.2)

/-- The Android density table of create_humaya_icons.py (lines 12-18),
in the script's (insertion) order. -/
def android_sizes : List (String × Nat) :=
  [("mipmap-mdpi", 48), ("mipmap-hdpi", 72), ("mipmap-xhdpi", 96),
   ("mipmap-xxhdpi", 144), ("mipmap-xxxhdpi", 192)]

/-- The `for folder, size in sizes.items()` loop of create_humaya_icons.py:
each iteration renders one icon and records (folder, filename, image); the
first exception aborts the remaining iterations, as in Python. -/
def icons_loop (logo : Img) :
    List (String × Nat) → Except PyError (List (String × String × Img))
  | [] => Except.ok []
  | entry :: rest =>
    match renderIcon logo entry.2 with
    | Except.error e => Except.error e
    | Except.ok icon =>
      match icons_loop logo rest with
      | Except.error e => Except.error e
      | Except.ok out => Except.ok ((entry.1, "ic_launcher.png", icon) :: out)

/-- create_app_icons_from_logo of create_humaya_icons.py: run the loop over
the Android density table.  The filesystem writes are modelled by returning
the list of (density directory, filename, image) triples in write order. -/
def create_app_icons_from_logo (logo : Img) :
    Except PyError (List (String × String × Img)) :=
  icons_loop logo android_sizes

/-- The Humaya orange (255, 102, 0, 255) of create_logo.py. -/
def orange_color : RGBA := ⟨255, 102, 0, 255⟩

/-- The white (255, 255, 255, 255) of create_logo.py. -/
def white_color : RGBA := ⟨255, 255, 255, 255⟩

/-- One ImageDraw primitive of create_logo.py: a filled ellipse or a filled
rectangle, each given by its inclusive bounding box [x0, y0, x1, y1] and fill
color, exactly the arguments the script passes to `draw.ellipse` and
`draw.rectangle`. -/
inductive Shape where
  | ellipse (x0 y0 x1 y1 : Nat) (color : RGBA)
  | rectangle (x0 y0 x1 y1 : Nat) (color : RGBA)
  deriving DecidableEq, Repr

/-- A canvas with an ordered list of draw commands applied to it.  The
rasterization of the primitives is not modelled: every claim about
create_logo.py concerns the geometry (bounding boxes) and colors of the
primitives, which this structure records faithfully and in draw order. -/
structure Drawing where
  width : Nat
  height : Nat
  background : RGBA
  shapes : List Shape
  deriving Repr

/-- create_humaya_logo of create_logo.py (lines 6-42): a transparent
size x size canvas, a filled orange circle inset by `margin = size // 10`
(bounding box [margin, margin, margin + circle_size, margin + circle_size]
with `circle_size = size - 2 * margin`), then the three white bars of the
"H": left vertical, right vertical, middle horizontal.  All divisions are
Python's integer floor division `//`; every subtraction here is on values
where the subtrahend never exceeds the minuend (for every size:
2 * (size / 10) ≤ size, size / 12 ≤ size / 3, size / 3 ≤ size, size / 2 ≤
size and size / 12 / 2 ≤ size / 2 / 2), so ℕ subtraction agrees with
Python's ints. -/
def create_humaya_logo (size : Nat) : Drawing :=
  let margin := size / 10
  let circle_size := size - 2 * margin
  let h_width := size / 3
  let h_height := size / 2
  let h_thickness := size / 12
  let h_x := (size - h_width) / 2
  let h_y := (size - h_height) / 2
  let h_middle_y := h_y + h_height / 2 - h_thickness / 2
  { width := size, height := size, background := ⟨0, 0, 0, 0⟩,
    shapes :=
      [Shape.ellipse margin margin (margin + circle_size) (margin + circle_size)
         orange_color,
       Shape.rectangle h_x h_y (h_x + h_thickness) (h_y + h_height) white_color,
       Shape.rectangle (h_x + h_width - h_thickness) h_y (h_x + h_width)
         (h_y + h_height) white_color,
       Shape.rectangle h_x h_middle_y (h_x + h_width) (h_middle_y + h_thickness)
         white_color] }

/-- A concrete 200 x 100 fully transparent test logo. -/
def test_logo : Img := ⟨200, 100, fun _ _ => ⟨0, 0, 0, 0⟩⟩

/-! ### Bit-accurate binary64 model of the scaling arithmetic

CPython evaluates the scaling block in IEEE-754 binary64: `w / h` on ints is
the correctly rounded double of the exact quotient, the literal `0.8` is the
correctly rounded double of 8/10, and each float multiplication and division
is correctly rounded (round-to-nearest, ties-to-even).  A nonnegative double
is held exactly as mantissa * 2 ^ exponent over ℕ and ℤ, so every theorem
about this model is checked by kernel computation.  Exponent overflow and
the subnormal range (magnitudes below 2 ^ -1022) are far outside the values
these scripts produce and are not modelled. -/

/-- Fuel-bounded binary logarithm: for 1 ≤ n < 2 ^ f, `log2fuel f n` is the
position of the highest set bit of n, i.e. floor(log2 n).  Structural
recursion on the fuel keeps it kernel-reducible. -/
def log2fuel : Nat → Nat → Nat
  | 0, _ => 0
  | f + 1, n => if n ≤ 1 then 0 else log2fuel f (n / 2) + 1

/-- Round the ratio a / b (b ≠ 0) to the nearest integer, ties to even. -/
def rnte (a b : Nat) : Nat :=
  let q := a / b
  let r := a % b
  if 2 * r < b then q
  else if b < 2 * r then q + 1
  else if q % 2 = 0 then q else q + 1

/-- A nonnegative binary64 value, held exactly as mant * 2 ^ exp.  A rounded
nonzero result has mant in [2 ^ 52, 2 ^ 53]; zero is ⟨0, 0⟩. -/
structure B64 where
  mant : Nat
  exp : Int
  deriving DecidableEq, Repr

/-- Correctly round the nonnegative scaled ratio (a / b) * 2 ^ t (b ≠ 0) to
the nearest binary64, ties to even.  The exponent e0 = floor(log2 value) is
found by scaling the value by 2 ^ 1100 (covering the whole binary64 normal
range) and taking the integer log2; the mantissa is the value scaled into
[2 ^ 52, 2 ^ 53) and rounded half-to-even.  Exactly one of `s.toNat` and
`(-s).toNat` is nonzero, so the scaled value is the ratio of the two
naturals formed below. -/
def roundB64 (a b : Nat) (t : Int) : B64 :=
  if a = 0 then ⟨0, 0⟩
  else
    let a2 := a * 2 ^ t.toNat
    let b2 := b * 2 ^ (-t).toNat
    let e0 : Int := (log2fuel 2400 (a2 * 2 ^ 1100 / b2) : Int) - 1100
    let s : Int := 52 - e0
    let m := rnte (a2 * 2 ^ s.toNat) (b2 * 2 ^ (-s).toNat)
    ⟨m, e0 - 52⟩

/-- Python true division of two nonnegative ints (`logo.width /
logo.height`): the correctly rounded double of the exact quotient. -/
def divNatB64 (a b : Nat) : B64 := roundB64 a b 0

/-- Python int * float (`size * 0.8`, `new_height * logo_aspect`): the int
converts to double exactly (every int here is far below 2 ^ 53) and the
product n * mant * 2 ^ exp is correctly rounded. -/
def mulNatB64 (n : Nat) (x : B64) : B64 := roundB64 (n * x.mant) 1 x.exp

/-- Python int / float (`new_width / logo_aspect`): the correctly rounded
double of the exact quotient n / (mant * 2 ^ exp). -/
def divNatByB64 (n : Nat) (x : B64) : B64 := roundB64 n x.mant (-x.exp)

/-- The float comparison `logo_aspect > 1` is exact on doubles:
mant * 2 ^ exp > 1. -/
def B64.gtOne (x : B64) : Bool :=
  2 ^ (-x.exp).toNat < x.mant * 2 ^ x.exp.toNat

/-- Python `int(...)` truncation of a nonnegative double: floor of
mant * 2 ^ exp. -/
def floorB64 (x : B64) : Nat :=
  x.mant * 2 ^ x.exp.toNat / 2 ^ (-x.exp).toNat

/-- The binary64 value of the Python literal 0.8: the correctly rounded
double of 8/10, namely 3602879701896397 * 2 ^ -52 (here with the mantissa
normalized to 7205759403792794 * 2 ^ -53). -/
def float08 : B64 := divNatB64 8 10

/-- The scaling block of create_humaya_icons.py (lines 26-33) once more, now
with every float operation correctly rounded to binary64: this is the
bit-accurate semantics of the Python code, deviating from
`scale_dims_humaya` exactly where double rounding changes a floor. -/
def scale_dims_humaya_float (w h size : Nat) : Except PyError (Nat × Nat) :=
  if h = 0 then Except.error PyError.zeroDivisionError
  else
    let logo_aspect : B64 := divNatB64 w h
    if logo_aspect.gtOne then
      let new_width : Nat := floorB64 (mulNatB64 size float08)
      let new_height : Nat := floorB64 (divNatByB64 new_width logo_aspect)
      Except.ok (new_width, new_height)
    else
      let new_height : Nat := floorB64 (mulNatB64 size float08)
      let new_width : Nat := floorB64 (mulNatB64 new_height logo_aspect)
      Except.ok (new_width, new_height)

/-- The scaling block of create_ios_icons.py (lines 35-42) with every float
operation correctly rounded to binary64, transcribed from that file (the
code is textually the same as in create_humaya_icons.py). -/
def scale_dims_ios_float (w h size : Nat) : Except PyError (Nat × Nat) :=
  if h = 0 then Except.error PyError.zeroDivisionError
  else
    let logo_aspect : B64 := divNatB64 w h
    if logo_aspect.gtOne then
      let new_width : Nat := floorB64 (mulNatB64 size float08)
      let new_height : Nat := floorB64 (divNatByB64 new_width logo_aspect)
      Except.ok (new_width, new_height)
    else
      let new_height : Nat := floorB64 (mulNatB64 size float08)
      let new_width : Nat := floorB64 (mulNatB64 new_height logo_aspect)
      Except.ok (new_width, new_height)

set_option maxRecDepth 100000

/-! ### Bridging the exact rational arithmetic to integer division -/

/-- Floor of `s * 0.8` is the integer `4 * s / 5`. -/
theorem floor_mul_eight_tenths (s : Nat) :
    Nat.floor ((s : ℚ) * ((8 : ℚ) / 10)) = 4 * s / 5 := by
  have h : (s : ℚ) * ((8 : ℚ) / 10) = ((8 * s : ℕ) : ℚ) / ((10 : ℕ) : ℚ) := by
    push_cast
    ring
  rw [h, Nat.floor_div_nat, Nat.floor_natCast]
  omega

/-- Floor of `a / (w / h)` over ℚ is the integer `a * h / w`. -/
theorem floor_div_aspect (a w h : Nat) :
    Nat.floor ((a : ℚ) / ((w : ℚ) / (h : ℚ))) = a * h / w := by
  rw [div_div_eq_mul_div]
  have h2 : (a : ℚ) * (h : ℚ) / (w : ℚ) = ((a * h : ℕ) : ℚ) / ((w : ℕ) : ℚ) := by
    push_cast
    ring
  rw [h2, Nat.floor_div_nat, Nat.floor_natCast]

/-- Floor of `a * (w / h)` over ℚ is the integer `a * w / h`. -/
theorem floor_mul_aspect (a w h : Nat) :
    Nat.floor ((a : ℚ) * ((w : ℚ) / (h : ℚ))) = a * w / h := by
  rw [← mul_div_assoc]
  have h2 : (a : ℚ) * (w : ℚ) / (h : ℚ) = ((a * w : ℕ) : ℚ) / ((h : ℕ) : ℚ) := by
    push_cast
    ring
  rw [h2, Nat.floor_div_nat, Nat.floor_natCast]

/-- The branch condition `logo_aspect > 1` holds exactly when the logo is
strictly wider than tall. -/
theorem one_lt_aspect_iff (w h : Nat) (hh : h ≠ 0) :
    1 < (w : ℚ) / (h : ℚ) ↔ h < w := by
  have hb : (0 : ℚ) < (h : ℚ) := by exact_mod_cast Nat.pos_of_ne_zero hh
  rw [one_lt_div hb]
  exact Nat.cast_lt

/-- Closed integer form of the scaling block: for a nonzero logo height the
computation never fails and the floors of the float expressions are exact
integer divisions. -/
theorem scale_dims_humaya_eq (w h s : Nat) (hh : h ≠ 0) :
    scale_dims_humaya w h s =
      if h < w then Except.ok (4 * s / 5, 4 * s / 5 * h / w)
      else Except.ok (4 * s / 5 * w / h, 4 * s / 5) := by
  by_cases hlt : h < w
  · have ha : 1 < (w : ℚ) / (h : ℚ) := (one_lt_aspect_iff w h hh).mpr hlt
    simp only [scale_dims_humaya, if_neg hh, if_pos ha, if_pos hlt,
      floor_mul_eight_tenths, floor_div_aspect]
  · have ha : ¬ 1 < (w : ℚ) / (h : ℚ) := fun hc =>
      hlt ((one_lt_aspect_iff w h hh).mp hc)
    simp only [scale_dims_humaya, if_neg hh, if_neg ha, if_neg hlt,
      floor_mul_eight_tenths, floor_mul_aspect]

/-- The scaling block succeeds whenever the logo height is nonzero, and both
content dimensions are bounded by `4 * s / 5 = floor(0.8 * s)`. -/
theorem scale_dims_humaya_ok (w h s : Nat) (hh : h ≠ 0) :
    ∃ nW nH, scale_dims_humaya w h s = Except.ok (nW, nH) ∧
      nW ≤ 4 * s / 5 ∧ nH ≤ 4 * s / 5 := by
  rw [scale_dims_humaya_eq w h s hh]
  by_cases hlt : h < w
  · rw [if_pos hlt]
    refine ⟨_, _, rfl, le_rfl, ?_⟩
    calc 4 * s / 5 * h / w ≤ 4 * s / 5 * w / w :=
          Nat.div_le_div_right (Nat.mul_le_mul_left _ (le_of_lt hlt))
      _ = 4 * s / 5 := Nat.mul_div_cancel _ (by omega)
  · rw [if_neg hlt]
    refine ⟨_, _, rfl, ?_, le_rfl⟩
    calc 4 * s / 5 * w / h ≤ 4 * s / 5 * h / h :=
          Nat.div_le_div_right (Nat.mul_le_mul_left _ (by omega))
      _ = 4 * s / 5 := Nat.mul_div_cancel _ (Nat.pos_of_ne_zero hh)

/-- Python `//` on the nonnegative difference of two naturals is ℕ division. -/
theorem fdiv_two_of_le (a b : Nat) (hba : b ≤ a) :
    Int.fdiv ((a : Int) - (b : Int)) 2 = ((a - b) / 2 : Nat) := by
  rw [Int.fdiv_eq_ediv _ (by omega)]
  omega

/-- renderIcon succeeds whenever the logo height is nonzero and returns a
canvas of exactly the requested square size. -/
theorem renderIcon_ok (logo : Img) (s : Nat) (hh : logo.height ≠ 0) :
    ∃ icon, renderIcon logo s = Except.ok icon ∧
      icon.width = s ∧ icon.height = s := by
  obtain ⟨nW, nH, hd, _, _⟩ := scale_dims_humaya_ok logo.width logo.height s hh
  refine ⟨image_paste (image_new s s ⟨255, 255, 255, 0⟩)
    (image_resize logo nW nH) (center_offsets_humaya s nW nH).1
    (center_offsets_humaya s nW nH).2, ?_, rfl, rfl⟩
  unfold renderIcon
  rw [hd]
  rfl

/-- The float scaling block, like the exact one, can only fail by the
division by zero: for nonzero height it always returns a pair. -/
theorem scale_dims_humaya_float_ok (w h s : Nat) (hh : h ≠ 0) :
    ∃ p, scale_dims_humaya_float w h s = Except.ok p := by
  simp only [scale_dims_humaya_float, if_neg hh]
  split
  · exact ⟨_, rfl⟩
  · exact ⟨_, rfl⟩

/-! ### The claims -/

/-- C1 counterexample: at source 53 x 76 and targetSize 96 the program's
float arithmetic computes newWidth = 52 (in both scripts: the double nearest
53/76 is 6281336322385165 * 2 ^ -53, and 76 times it rounds to 53 - 2 ^ -47,
which `int` truncates to 52), while the claimed formula
floor(newHeight * aspect) = floor(76 * (53/76)) = 53 — the value the
exact-rational model returns.  So renderIcon does not compute the content
dimensions exactly as the floor formulas state. -/
theorem renderIcon_content_dims_formula_counterexample :
    scale_dims_humaya_float 53 76 96 = Except.ok (52, 76) ∧
    scale_dims_ios_float 53 76 96 = Except.ok (52, 76) ∧
    scale_dims_humaya 53 76 96 = Except.ok (53, 76) ∧
    Nat.floor (((76 : ℕ) : ℚ) * (((53 : ℕ) : ℚ) / ((76 : ℕ) : ℚ))) = 53 := by
  refine ⟨rfl, rfl, ?_, ?_⟩
  · rw [scale_dims_humaya_eq 53 76 96 (by norm_num)]
    norm_num
  · rw [floor_mul_aspect 76 53 76]

/-- C1 amended: the program computes the content dimensions by the spec's
floor formulas evaluated in IEEE binary64 arithmetic, not exactly.  For
every source with positive width and height and every positive targetSize
the float scaling block succeeds; it agrees with the exact floor formulas at
the spec's concrete cases (200 x 100 at 96 gives (76, 38); 100 x 1 at 48
gives (38, 0)), but at 53 x 76 and targetSize 96 it computes newWidth = 52,
one below the exact floor(newHeight * aspect) = 53. -/
theorem renderIcon_content_dims_formula_float (w h s : Nat)
    (hw : 0 < w) (hh : 0 < h) (hs : 0 < s) :
    (∃ p, scale_dims_humaya_float w h s = Except.ok p) ∧
    scale_dims_humaya_float 200 100 96 = Except.ok (76, 38) ∧
    scale_dims_humaya_float 100 1 48 = Except.ok (38, 0) ∧
    scale_dims_humaya_float 53 76 96 = Except.ok (52, 76) :=
  ⟨scale_dims_humaya_float_ok w h s hh.ne', rfl, rfl, rfl⟩

/-- Witness for the amended C1 at the 200 x 100 source and targetSize 96. -/
theorem renderIcon_content_dims_formula_float_witness :
    ∃ p, scale_dims_humaya_float 200 100 96 = Except.ok p :=
  (renderIcon_content_dims_formula_float 200 100 96 (by norm_num)
    (by norm_num) (by norm_num)).1

/-- C2 counterexample: a source of width 0 and height 1 does not make the
computation fail at all: there is no InvalidInput validation; the scaling
block happily returns content dimensions (0, 38) for targetSize 48. -/
theorem scale_no_invalid_input_check :
    scale_dims_humaya 0 1 48 = Except.ok (0, 38) := by
  rw [scale_dims_humaya_eq 0 1 48 one_ne_zero]
  norm_num

/-- C2 amended: the scripts perform no input validation; the computation
fails (with Python's ZeroDivisionError, not a structured InvalidInput) when
and only when the source height is zero; zero width and targetSize <= 0 are
not rejected. -/
theorem scale_failure_iff_zero_height (w h s : Nat) :
    (h = 0 → scale_dims_humaya w h s = Except.error PyError.zeroDivisionError) ∧
    (h ≠ 0 → ∃ d, scale_dims_humaya w h s = Except.ok d) := by
  constructor
  · intro h0
    simp [scale_dims_humaya, h0]
  · intro h0
    obtain ⟨nW, nH, hd, _, _⟩ := scale_dims_humaya_ok w h s h0
    exact ⟨(nW, nH), hd⟩

/-- Witness for the amended C2: height 0 raises ZeroDivisionError; width 0
with height 1 succeeds. -/
theorem scale_failure_iff_zero_height_witness :
    scale_dims_humaya 7 0 48 = Except.error PyError.zeroDivisionError ∧
    ∃ d, scale_dims_humaya 0 1 48 = Except.ok d :=
  ⟨(scale_failure_iff_zero_height 7 0 48).1 rfl,
   (scale_failure_iff_zero_height 0 1 48).2 one_ne_zero⟩

/-- C6: for a 200 x 100 source (aspect 2.0) and targetSize 96 the scripts
compute newWidth = 76, newHeight = 38, x = 10, y = 29. -/
theorem renderIcon_concrete_200x100_96 :
    scale_dims_humaya 200 100 96 = Except.ok (76, 38) ∧
    center_offsets_humaya 96 76 38 = (10, 29) := by
  constructor
  · rw [scale_dims_humaya_eq 200 100 96 (by norm_num)]
    norm_num
  · decide

/-- C9: the scale-and-center computation duplicated in the Android script and
the iOS script is the same function: identical content dimensions and
identical centering offsets on every input. -/
theorem humaya_ios_scale_center_agree (w h s : Nat)
    (hw : 0 < w) (hh : 0 < h) (hs : 0 < s) :
    scale_dims_humaya w h s = scale_dims_ios w h s ∧
    ∀ nW nH : Nat, center_offsets_humaya s nW nH = center_offsets_ios s nW nH :=
  ⟨rfl, fun _ _ => rfl⟩

/-- Witness for C9 at source 200 x 100, targetSize 96, offsets of (76, 38). -/
theorem humaya_ios_scale_center_agree_witness :
    scale_dims_humaya 200 100 96 = scale_dims_ios 200 100 96 ∧
    center_offsets_humaya 96 76 38 = center_offsets_ios 96 76 38 :=
  ⟨(humaya_ios_scale_center_agree 200 100 96 (by norm_num) (by norm_num)
      (by norm_num)).1,
   (humaya_ios_scale_center_agree 200 100 96 (by norm_num) (by norm_num)
      (by norm_num)).2 76 38⟩

/-- C10: positive source dimensions do not guarantee positive content
dimensions: a 100 x 1 source with targetSize 48 yields newWidth = 38 and
newHeight = floor(38 / 100) = 0. -/
theorem zero_content_dims_from_positive_source :
    0 < 100 ∧ 0 < 1 ∧ 0 < 48 ∧
    scale_dims_humaya 100 1 48 = Except.ok (38, 0) := by
  refine ⟨by norm_num, by norm_num, by norm_num, ?_⟩
  rw [scale_dims_humaya_eq 100 1 48 one_ne_zero]
  norm_num

/-- C5: the centering offsets x = floor((targetSize - newWidth) / 2) and
y = floor((targetSize - newHeight) / 2) keep the pasted rectangle inside the
canvas and center it within one pixel of symmetry. -/
theorem center_offsets_within_canvas (w h s : Nat)
    (hw : 0 < w) (hh : 0 < h) (hs : 0 < s) :
    ∃ nW nH : Nat, ∃ x y : Int,
      scale_dims_humaya w h s = Except.ok (nW, nH) ∧
      center_offsets_humaya s nW nH = (x, y) ∧
      x + nW ≤ s ∧ y + nH ≤ s ∧
      |x - ((s : Int) - nW - x)| ≤ 1 ∧ |y - ((s : Int) - nH - y)| ≤ 1 := by
  obtain ⟨nW, nH, hd, hbW, hbH⟩ := scale_dims_humaya_ok w h s hh.ne'
  have hWs : nW ≤ s := le_trans hbW (by omega)
  have hHs : nH ≤ s := le_trans hbH (by omega)
  refine ⟨nW, nH, Int.fdiv ((s : Int) - (nW : Int)) 2,
    Int.fdiv ((s : Int) - (nH : Int)) 2, hd, rfl, ?_, ?_, ?_, ?_⟩
  · rw [fdiv_two_of_le s nW hWs]
    omega
  · rw [fdiv_two_of_le s nH hHs]
    omega
  · rw [fdiv_two_of_le s nW hWs, abs_le]
    omega
  · rw [fdiv_two_of_le s nH hHs, abs_le]
    omega

/-- Witness for C5 at the 200 x 100 source and targetSize 96. -/
theorem center_offsets_within_canvas_witness :
    ∃ nW nH : Nat, ∃ x y : Int,
      scale_dims_humaya 200 100 96 = Except.ok (nW, nH) ∧
      center_offsets_humaya 96 nW nH = (x, y) ∧
      x + nW ≤ 96 ∧ y + nH ≤ 96 ∧
      |x - ((96 : Int) - nW - x)| ≤ 1 ∧ |y - ((96 : Int) - nH - y)| ≤ 1 :=
  center_offsets_within_canvas 200 100 96 (by norm_num) (by norm_num)
    (by norm_num)

/-- C4: renderIcon returns a canvas of exactly targetSize x targetSize and
the content dimensions never exceed floor(targetSize * 0.8). -/
theorem renderIcon_square_and_content_bound (logo : Img) (s : Nat)
    (hw : 0 < logo.width) (hh : 0 < logo.height) (hs : 0 < s) :
    ∃ icon, ∃ nW nH : Nat,
      renderIcon logo s = Except.ok icon ∧
      icon.width = s ∧ icon.height = s ∧
      scale_dims_humaya logo.width logo.height s = Except.ok (nW, nH) ∧
      nW ≤ Nat.floor ((s : ℚ) * ((8 : ℚ) / 10)) ∧
      nH ≤ Nat.floor ((s : ℚ) * ((8 : ℚ) / 10)) := by
  obtain ⟨nW, nH, hd, hbW, hbH⟩ :=
    scale_dims_humaya_ok logo.width logo.height s hh.ne'
  obtain ⟨icon, hi, hiw, hih⟩ := renderIcon_ok logo s hh.ne'
  refine ⟨icon, nW, nH, hi, hiw, hih, hd, ?_, ?_⟩
  · rw [floor_mul_eight_tenths]
    exact hbW
  · rw [floor_mul_eight_tenths]
    exact hbH

/-- Witness for C4 at the 200 x 100 test logo and targetSize 96. -/
theorem renderIcon_square_and_content_bound_witness :
    ∃ icon, ∃ nW nH : Nat,
      renderIcon test_logo 96 = Except.ok icon ∧
      icon.width = 96 ∧ icon.height = 96 ∧
      scale_dims_humaya test_logo.width test_logo.height 96 =
        Except.ok (nW, nH) ∧
      nW ≤ Nat.floor (((96 : ℕ) : ℚ) * ((8 : ℚ) / 10)) ∧
      nH ≤ Nat.floor (((96 : ℕ) : ℚ) * ((8 : ℚ) / 10)) :=
  renderIcon_square_and_content_bound test_logo 96 (by decide) (by decide)
    (by decide)

/-- C3: every pixel of the returned icon lying strictly outside the pasted
content rectangle [x, x + newWidth) x [y, y + newHeight) has alpha 0: the
canvas is allocated fully transparent and paste leaves pixels outside the
box untouched. -/
theorem renderIcon_outside_paste_transparent (logo : Img) (s : Nat)
    (hw : 0 < logo.width) (hh : 0 < logo.height) (hs : 0 < s) :
    ∃ icon, ∃ nW nH : Nat, ∃ x y : Int,
      renderIcon logo s = Except.ok icon ∧
      scale_dims_humaya logo.width logo.height s = Except.ok (nW, nH) ∧
      center_offsets_humaya s nW nH = (x, y) ∧
      ∀ i j : Nat,
        ¬ (x ≤ (i : Int) ∧ (i : Int) < x + (nW : Int) ∧
           y ≤ (j : Int) ∧ (j : Int) < y + (nH : Int)) →
        (icon.pixel i j).a = 0 := by
  obtain ⟨nW, nH, hd, _, _⟩ :=
    scale_dims_humaya_ok logo.width logo.height s hh.ne'
  refine ⟨image_paste (image_new s s ⟨255, 255, 255, 0⟩)
      (image_resize logo nW nH) (center_offsets_humaya s nW nH).1
      (center_offsets_humaya s nW nH).2, nW, nH,
    (center_offsets_humaya s nW nH).1, (center_offsets_humaya s nW nH).2,
    ?_, hd, rfl, ?_⟩
  · unfold renderIcon
    rw [hd]
    rfl
  · intro i j hout
    simp only [image_paste, image_resize, image_new]
    rw [if_neg hout]

/-- Witness for C3: at the 200 x 100 test logo and targetSize 96 the corner
pixel (0, 0) lies outside the pasted rectangle and has alpha 0. -/
theorem renderIcon_outside_paste_transparent_witness :
    ∃ icon, renderIcon test_logo 96 = Except.ok icon ∧
      (icon.pixel 0 0).a = 0 := by
  obtain ⟨icon, nW, nH, x, y, hi, hd, hc, hp⟩ :=
    renderIcon_outside_paste_transparent test_logo 96 (by decide) (by decide)
      (by decide)
  have hd2 : scale_dims_humaya test_logo.width test_logo.height 96 =
      Except.ok (76, 38) := by
    rw [show test_logo.width = 200 from rfl, show test_logo.height = 100 from rfl,
      scale_dims_humaya_eq 200 100 96 (by norm_num)]
    norm_num
  rw [hd2] at hd
  injection hd with hd
  cases hd
  have hc2 : center_offsets_humaya 96 76 38 = (10, 29) := by decide
  rw [hc2] at hc
  cases hc
  exact ⟨icon, hi, hp 0 0 (by decide)⟩

/-- C8: one run of the Android generator produces exactly 5 outputs, each
named ic_launcher.png, one under each density directory in table order, with
pixel sizes 48, 72, 96, 144, 192. -/
theorem android_generator_five_icons (logo : Img)
    (hw : 0 < logo.width) (hh : 0 < logo.height) :
    ∃ out, create_app_icons_from_logo logo = Except.ok out ∧
      out.length = 5 ∧
      out.map (fun e => (e.1, e.2.1)) =
        [("mipmap-mdpi", "ic_launcher.png"), ("mipmap-hdpi", "ic_launcher.png"),
         ("mipmap-xhdpi", "ic_launcher.png"),
         ("mipmap-xxhdpi", "ic_launcher.png"),
         ("mipmap-xxxhdpi", "ic_launcher.png")] ∧
      out.map (fun e => (e.2.2.width, e.2.2.height)) =
        [(48, 48), (72, 72), (96, 96), (144, 144), (192, 192)] := by
  obtain ⟨i1, e1, w1, t1⟩ := renderIcon_ok logo 48 hh.ne'
  obtain ⟨i2, e2, w2, t2⟩ := renderIcon_ok logo 72 hh.ne'
  obtain ⟨i3, e3, w3, t3⟩ := renderIcon_ok logo 96 hh.ne'
  obtain ⟨i4, e4, w4, t4⟩ := renderIcon_ok logo 144 hh.ne'
  obtain ⟨i5, e5, w5, t5⟩ := renderIcon_ok logo 192 hh.ne'
  refine ⟨[("mipmap-mdpi", "ic_launcher.png", i1),
    ("mipmap-hdpi", "ic_launcher.png", i2),
    ("mipmap-xhdpi", "ic_launcher.png", i3),
    ("mipmap-xxhdpi", "ic_launcher.png", i4),
    ("mipmap-xxxhdpi", "ic_launcher.png", i5)], ?_, rfl, by simp, ?_⟩
  · simp [create_app_icons_from_logo, android_sizes, icons_loop,
      e1, e2, e3, e4, e5]
  · simp [w1, t1, w2, t2, w3, t3, w4, t4, w5, t5]

/-- Witness for C8 at the 200 x 100 test logo. -/
theorem android_generator_five_icons_witness :
    ∃ out, create_app_icons_from_logo test_logo = Except.ok out ∧
      out.length = 5 := by
  obtain ⟨out, h1, h2, _, _⟩ :=
    android_generator_five_icons test_logo (by decide) (by decide)
  exact ⟨out, h1, h2⟩

/-- C7: create_humaya_logo draws on a transparent size x size canvas a filled
circle inset by size/10 per side (so its bounding box is
[size/10, size - size/10] in both axes, diameter size - 2*(size/10)) and an
"H" glyph of width size/3, height size/2, stroke size/12, centered; at
size 48 the circle is inset 4 px per side (diameter 40) and the "H" spans
x in [16, 32], y in [12, 36] (width 16, height 24, stroke 4), so the glyph
is centered at the canvas center (24, 24). -/
theorem create_humaya_logo_geometry :
    (∀ s : Nat,
      (create_humaya_logo s).width = s ∧
      (create_humaya_logo s).height = s ∧
      (create_humaya_logo s).background.a = 0 ∧
      (create_humaya_logo s).shapes =
        [Shape.ellipse (s / 10) (s / 10) (s - s / 10) (s - s / 10)
           orange_color,
         Shape.rectangle ((s - s / 3) / 2) ((s - s / 2) / 2)
           ((s - s / 3) / 2 + s / 12) ((s - s / 2) / 2 + s / 2) white_color,
         Shape.rectangle ((s - s / 3) / 2 + s / 3 - s / 12) ((s - s / 2) / 2)
           ((s - s / 3) / 2 + s / 3) ((s - s / 2) / 2 + s / 2) white_color,
         Shape.rectangle ((s - s / 3) / 2)
           ((s - s / 2) / 2 + s / 2 / 2 - s / 12 / 2)
           ((s - s / 3) / 2 + s / 3)
           ((s - s / 2) / 2 + s / 2 / 2 - s / 12 / 2 + s / 12) white_color]) ∧
    (create_humaya_logo 48).shapes =
      [Shape.ellipse 4 4 44 44 orange_color,
       Shape.rectangle 16 12 20 36 white_color,
       Shape.rectangle 28 12 32 36 white_color,
       Shape.rectangle 16 22 32 26 white_color] ∧
    16 + 32 = 2 * 24 ∧ 12 + 36 = 2 * 24 := by
  refine ⟨fun s => ⟨rfl, rfl, rfl, ?_⟩, by decide, by norm_num, by norm_num⟩
  have hm : s / 10 + (s - 2 * (s / 10)) = s - s / 10 := by omega
  simp only [create_humaya_logo, hm]
